import Mathlib

/-!
Shallow embedding of src/snorkel/snorkel.py (TrainingSet, Learner,
PipelinedLearner) and proofs of the specification claims about it.

Modelling conventions:
* scipy sparse matrices become the structure SpMat: an explicit shape, a
  dense row-major list of entries, a dtype tag and a storage-format tag
  (lil / csr / csc).  Scalars are rationals.
* numpy vectors become lists of rationals; np.ones, scalar multiplication
  and np.concatenate are embedded as functions on lists.
* candidates are an arbitrary type C; labeling functions are C -> rationals
  (the {-1,0,1} range is a precondition, as in the source docstring).
* the external Featurizer and the external NoiseAwareModel / LogReg classes
  live in other modules of the repository (features.py, learning.py) that
  are not part of the source under verification; they are modelled from the
  spec as records of opaque functions (spec section 6, External Interfaces).
* Python object mutation becomes explicit state passing: a method that
  mutates self returns the new value of self; a method that can raise
  returns Except / Option.
-/

namespace Snorkel

/-- numpy dtype tags relevant here: scipy.sparse.lil_matrix((n, m)) with no
dtype argument allocates float64 entries. -/
inductive DType
  | float64
  | int8
deriving DecidableEq, Repr

/-- scipy sparse storage formats used by the source. -/
inductive SpFmt
  | lil
  | csr
  | csc
deriving DecidableEq, Repr

/-- A scipy sparse matrix: shape, dense row-major data, dtype and storage
format.  Sparsity is a storage concern only, so the embedding keeps the
mathematical content (shape and entries) plus the two tags the source
manipulates (dtype, format). -/
structure SpMat where
  nrows : Nat
  ncols : Nat
  data : List (List ℚ)
  dtype : DType
  fmt : SpFmt
deriving DecidableEq, Repr

/-- Entry (i, j) of a matrix; out-of-range reads give the sparse zero. -/
def SpMat.entry (A : SpMat) (i j : Nat) : ℚ :=
  (A.data.getD i []).getD j 0

/-- Row i of a matrix (empty when out of range). -/
def SpMat.row (A : SpMat) (i : Nat) : List ℚ :=
  A.data.getD i []

/-- Well-formedness: the data really has the declared shape. -/
def SpMat.WF (A : SpMat) : Prop :=
  A.data.length = A.nrows ∧ ∀ r ∈ A.data, r.length = A.ncols

instance (A : SpMat) : Decidable A.WF := by
  unfold SpMat.WF; infer_instance

/-- .tocsr(): same matrix, csr storage. -/
def SpMat.tocsr (A : SpMat) : SpMat := { A with fmt := .csr }

/-- .tocsc(): same matrix, csc storage. -/
def SpMat.tocsc (A : SpMat) : SpMat := { A with fmt := .csc }

/-- dtype upcasting rule used by scipy.sparse.hstack. -/
def DType.join : DType → DType → DType
  | .int8, .int8 => .int8
  | _, _ => .float64

/-- scipy.sparse.hstack([A, B], format='csc'): horizontal block
concatenation, result stored in csc format. -/
def hstack_csc (A B : SpMat) : SpMat :=
  { nrows := A.nrows
    ncols := A.ncols + B.ncols
    data := List.zipWith (· ++ ·) A.data B.data
    dtype := A.dtype.join B.dtype
    fmt := .csc }

/-- np.ones(n) as a list. -/
def npOnes (n : Nat) : List ℚ := List.replicate n 1

/-- numpy scalar * vector. -/
def npScale (a : ℚ) (v : List ℚ) : List ℚ := v.map (fun x => a * x)

/-- np.concatenate on a list of vectors. -/
def npConcatenate (vs : List (List ℚ)) : List ℚ := vs.flatten

/-- Modelled from the spec: the external Featurizer object (features.py is
not part of the source under verification).  Spec section 6: it exposes
fit_transform and transform, each taking a candidate sequence and returning
a sparse matrix. -/
structure Featurizer (C : Type) where
  fit_transform : List C → SpMat
  transform : List C → SpMat

/-- Hyperparameters forwarded via **model_hyperparams: a keyword → value
association list. -/
def Hyper : Type := List (String × ℚ)

/-- Modelled from the spec: the pure functions of an external
NoiseAwareModel / LogReg (learning.py is not part of the source under
verification).  Spec section 6: train(X, w0, training_marginals?, **hp)
produces a weight vector; marginals and predict read the current weights
and an input matrix. -/
structure ModelFns where
  trainFn : SpMat → List ℚ → Option (List ℚ) → Hyper → List ℚ
  marginalsFn : List ℚ → SpMat → List ℚ
  predictFn : List ℚ → SpMat → List ℚ

/-- Modelled from the spec: an external model instance = its functions plus
its mutable weight attribute w. -/
structure Model where
  fns : ModelFns
  w : List ℚ

/-- model.train(X, w0=…, training_marginals=…, **hp): stores the learned
weight vector in w (and, in the source, also returns it). -/
def Model.train (M : Model) (X : SpMat) (w0 : List ℚ)
    (training_marginals : Option (List ℚ)) (hp : Hyper) : Model :=
  { M with w := M.fns.trainFn X w0 training_marginals hp }

/-- model.marginals(X). -/
def Model.marginals (M : Model) (X : SpMat) : List ℚ :=
  M.fns.marginalsFn M.w X

/-- model.predict(X). -/
def Model.predict (M : Model) (X : SpMat) : List ℚ :=
  M.fns.predictFn M.w X

/-- TrainingSet._apply_lfs(candidates): build a lil_matrix of shape
(len(candidates), len(lfs)) — float64 by scipy default — fill X[i,j] =
lf_j(candidate_i) for every cell, and return X.tocsr(). -/
def apply_lfs {C : Type} (lfs : List (C → ℚ)) (candidates : List C) : SpMat :=
  (SpMat.mk candidates.length lfs.length
    (candidates.map (fun c => lfs.map (fun lf => lf c)))
    .float64 .lil).tocsr

/-- TrainingSet.transform(candidates, fit), as a function of the fields it
reads (self.lfs, self.featurizer): apply the LFs, then featurize with
fit_transform when fit else transform; F stays None without a featurizer. -/
def transformWith {C : Type} (lfs : List (C → ℚ)) (featurizer : Option (Featurizer C))
    (candidates : List C) (fit : Bool) : SpMat × Option SpMat :=
  let L := apply_lfs lfs candidates
  let F : Option SpMat :=
    match featurizer with
    | none => none
    | some fz => some (if fit then fz.fit_transform candidates else fz.transform candidates)
  (L, F)

/-- The TrainingSet object: inputs plus the (L, F) computed at
construction. -/
structure TrainingSet (C : Type) where
  training_candidates : List C
  featurizer : Option (Featurizer C)
  lfs : List (C → ℚ)
  L : SpMat
  F : Option SpMat

/-- TrainingSet.transform method (reads self.lfs and self.featurizer). -/
def TrainingSet.transform {C : Type} (ts : TrainingSet C) (candidates : List C)
    (fit : Bool := false) : SpMat × Option SpMat :=
  transformWith ts.lfs ts.featurizer candidates fit

/-- TrainingSet.__init__: store the inputs and immediately set
self.L, self.F = self.transform(self.training_candidates, fit=True). -/
def TrainingSet.make {C : Type} (training_candidates : List C) (lfs : List (C → ℚ))
    (featurizer : Option (Featurizer C) := none) : TrainingSet C :=
  let LF := transformWith lfs featurizer training_candidates true
  { training_candidates := training_candidates
    featurizer := featurizer
    lfs := lfs
    L := LF.1
    F := LF.2 }

/-- Python exceptions surfaced by the embedded code. -/
inductive PyError
  | attributeError
deriving DecidableEq, Repr

/-- The Learner object state: training-set-derived fields plus the test
cache.  X_train and the cache fields start as None. -/
structure Learner (C : Type) where
  training_set : TrainingSet C
  model : Model
  L_train : SpMat
  n_train : Nat
  m : Nat
  F_train : SpMat
  f : Nat
  X_train : Option SpMat
  test_candidates : Option (List C)
  gold_labels : Option (List ℚ)
  X_test : Option SpMat

/-- Learner.__init__ (shared by PipelinedLearner): reads
self.n_train, self.m = L.shape and self.f = F.shape[1].  When the training
set has no featurizer, F is None and reading None.shape raises
AttributeError. -/
def Learner.init {C : Type} (training_set : TrainingSet C) (model : Model) :
    Except PyError (Learner C) :=
  match training_set.F with
  | none => .error .attributeError
  | some F =>
    .ok { training_set := training_set
          model := model
          L_train := training_set.L
          n_train := training_set.L.nrows
          m := training_set.L.ncols
          F_train := F
          f := F.ncols
          X_train := none
          test_candidates := none
          gold_labels := none
          X_test := none }

/-- Learner._set_model_X (joint strategy):
sparse.hstack([L, F], format='csc'). -/
def Learner.set_model_X (L F : SpMat) : SpMat := hstack_csc L F

/-- PipelinedLearner._set_model_X override: F.tocsc(), L ignored. -/
def PipelinedLearner.set_model_X (_L F : SpMat) : SpMat := F.tocsc

/-- Learner.train (joint strategy): w0 = np.concatenate([lf_w0*ones(m),
feat_w0*ones(f)]); X_train = self._set_model_X(L_train, F_train) — joint
dispatch: hstack; then model.train(X_train, w0=w0, **hp). -/
def Learner.train {C : Type} (lr : Learner C) (lf_w0 : ℚ := 5) (feat_w0 : ℚ := 0)
    (hp : Hyper := []) : Learner C :=
  let w0 := npConcatenate [npScale lf_w0 (npOnes lr.m), npScale feat_w0 (npOnes lr.f)]
  let X_train := Learner.set_model_X lr.L_train lr.F_train
  { lr with
      X_train := some X_train
      model := lr.model.train X_train w0 none hp }

/-- Learner.lf_weights: self.model.w[:self.m]. -/
def Learner.lf_weights {C : Type} (lr : Learner C) : List ℚ :=
  lr.model.w.take lr.m

/-- Learner.feat_weights: self.model.w[self.m:]. -/
def Learner.feat_weights {C : Type} (lr : Learner C) : List ℚ :=
  lr.model.w.drop lr.m

/-- any(gold_labels != cached): numpy elementwise inequality followed by
any().  Comparison with a cached value of a different length is undefined
in the source (spec section 9 flags it); the embedding treats it as a
difference, i.e. a cache miss.  The None branch is unreachable behind the
X_test-is-None short-circuit (the cache fields are set together). -/
def goldDiffers (gl : List ℚ) (cached : Option (List ℚ)) : Bool :=
  match cached with
  | none => true
  | some b => (List.zipWith (fun x y => x != y) gl b).any id || gl.length != b.length

/-- The cache condition of Learner.test:
X_test is None or test_candidates != cached or any(gold_labels != cached). -/
def Learner.cacheMiss {C : Type} [DecidableEq C] (lr : Learner C)
    (tc : List C) (gl : List ℚ) : Bool :=
  lr.X_test.isNone || some tc != lr.test_candidates || goldDiffers gl lr.gold_labels

/-- Learner.test: on a cache miss, store test_candidates and gold_labels,
transform the test candidates through the training set (fit=False) and
rebuild X_test with the strategy's _set_model_X (passed explicitly here to
make the Python virtual dispatch visible); on a hit, reuse the cache.
Returns the new state and whether the expensive transform path ran; the
always-executed scoring and optional plotting are external side effects
with no Learner state.  none models the exception raised when the training
set has no featurizer (F_test is None and _set_model_X raises on it). -/
def Learner.test {C : Type} [DecidableEq C] (strat : SpMat → SpMat → SpMat)
    (lr : Learner C) (tc : List C) (gl : List ℚ) : Option (Learner C × Bool) :=
  if lr.cacheMiss tc gl then
    match lr.training_set.transform tc false with
    | (_L_test, none) => none
    | (L_test, some F_test) =>
      some ({ lr with
                test_candidates := some tc
                gold_labels := some gl
                X_test := some (strat L_test F_test) }, true)
  else
    some (lr, false)

/-- The PipelinedLearner object: the inherited Learner state plus the
training_model and w attributes its train() creates. -/
structure PipelinedLearner (C : Type) where
  base : Learner C
  training_model : Option Model
  w : Option (List ℚ)

/-- PipelinedLearner construction: the inherited Learner.__init__, with the
train-time attributes not yet set. -/
def PipelinedLearner.init {C : Type} (training_set : TrainingSet C) (model : Model) :
    Except PyError (PipelinedLearner C) :=
  (Learner.init training_set model).map (fun b => ⟨b, none, none⟩)

/-- PipelinedLearner.train: w0_1 = lf_w0*ones(m); w0_2 = feat_w0*ones(f);
training_model = LogReg() trained on L_train with w0_1; training_marginals
= training_model.marginals(L_train); X_train = self._set_model_X(L_train,
F_train) — pipelined dispatch: F.tocsc(); self.w = model.train(X_train,
training_marginals=…, w0=w0_2, **hp).  The external LogReg class is passed
in as its functions logReg; a fresh instance starts with empty weights. -/
def PipelinedLearner.train {C : Type} (logReg : ModelFns) (p : PipelinedLearner C)
    (feat_w0 : ℚ := 0) (lf_w0 : ℚ := 1) (hp : Hyper := []) : PipelinedLearner C :=
  let w0_1 := npScale lf_w0 (npOnes p.base.m)
  let w0_2 := npScale feat_w0 (npOnes p.base.f)
  let training_model := (Model.mk logReg []).train p.base.L_train w0_1 none hp
  let training_marginals := training_model.marginals p.base.L_train
  let X_train := PipelinedLearner.set_model_X p.base.L_train p.base.F_train
  let model' := p.base.model.train X_train w0_2 (some training_marginals) hp
  { base := { p.base with X_train := some X_train, model := model' }
    training_model := some training_model
    w := some model'.w }

/-- PipelinedLearner.lf_weights: self.training_model.w (None before
train(), where the attribute read would raise). -/
def PipelinedLearner.lf_weights {C : Type} (p : PipelinedLearner C) : Option (List ℚ) :=
  p.training_model.map Model.w

/-- PipelinedLearner.feat_weights: self.model.w. -/
def PipelinedLearner.feat_weights {C : Type} (p : PipelinedLearner C) : List ℚ :=
  p.base.model.w

/-! ## Helper lemmas about the embedded operations -/

theorem getD_zipWith_append (as bs : List (List ℚ)) (h : as.length = bs.length) (i : Nat) :
    (List.zipWith (· ++ ·) as bs).getD i [] = (as.getD i []) ++ (bs.getD i []) := by
  induction as generalizing bs i with
  | nil =>
    cases bs with
    | nil => simp
    | cons b bs => simp at h
  | cons a as ih =>
    cases bs with
    | nil => simp at h
    | cons b bs =>
      cases i with
      | zero => simp
      | succ i =>
        simp only [List.zipWith_cons_cons, List.getD_cons_succ]
        exact ih bs (by simpa using h) i

/-- Entry-level characterization of the joint model input: column j reads
from L when j < L.ncols and from F (shifted) otherwise. -/
theorem hstack_csc_entry (A B : SpMat) (hA : A.WF) (hB : B.WF)
    (hr : A.nrows = B.nrows) (i j : Nat) :
    (hstack_csc A B).entry i j =
      if j < A.ncols then A.entry i j else B.entry i (j - A.ncols) := by
  unfold hstack_csc SpMat.entry
  simp only
  rw [getD_zipWith_append A.data B.data (by rw [hA.1, hB.1, hr]) i]
  by_cases hi : i < A.data.length
  · have hmem : A.data.getD i [] ∈ A.data := by
      rw [List.getD_eq_getElem A.data [] hi]
      exact List.getElem_mem hi
    have hlen : (A.data.getD i []).length = A.ncols := hA.2 _ hmem
    by_cases hj : j < A.ncols
    · rw [if_pos hj, List.getD_append _ _ _ _ (by rw [hlen]; exact hj)]
    · rw [if_neg hj, List.getD_append_right _ _ _ _ (by rw [hlen]; omega), hlen]
  · have h1 : A.data.getD i [] = [] := List.getD_eq_default _ _ (by omega)
    have h2 : B.data.getD i [] = [] := by
      refine List.getD_eq_default _ _ ?_
      rw [hB.1, ← hr, ← hA.1]
      omega
    rw [h1, h2]
    split <;> simp

/-- The initial weight vector of the joint strategy, written with numpy
operations in the source, is m copies of lf_w0 followed by f copies of
feat_w0. -/
theorem w0_concat (m f : Nat) (a b : ℚ) :
    npConcatenate [npScale a (npOnes m), npScale b (npOnes f)] =
      List.replicate m a ++ List.replicate f b := by
  unfold npConcatenate npScale npOnes
  simp [List.map_replicate]

/-! ## Concrete objects used by the witnesses -/

/-- A concrete LF on Nat candidates with values in {-1, 1}. -/
def exLF (c : Nat) : ℚ := if c = 0 then 1 else -1

/-- A concrete one-column feature matrix for a candidate list. -/
def exFMat (cs : List Nat) : SpMat :=
  { nrows := cs.length
    ncols := 1
    data := cs.map (fun c => [(c : ℚ)])
    dtype := .float64
    fmt := .csr }

/-- A concrete featurizer. -/
def exFz : Featurizer Nat := { fit_transform := exFMat, transform := exFMat }

/-- A concrete training set over candidates [0, 1]. -/
def exTS : TrainingSet Nat := TrainingSet.make [0, 1] [exLF] (some exFz)

/-- Concrete model functions: training returns the initial weights,
marginals and predictions return the current weights. -/
def exFns : ModelFns :=
  { trainFn := fun _X w0 _tm _hp => w0
    marginalsFn := fun w _X => w
    predictFn := fun w _X => w }

/-- A concrete model whose weight vector has length m + f = 2 for exTS. -/
def exModel : Model := { fns := exFns, w := [2, 3] }

/-- A concrete joint Learner over exTS (the state Learner.init produces,
with a trained weight vector installed). -/
def exL : Learner Nat :=
  { training_set := exTS
    model := exModel
    L_train := exTS.L
    n_train := 2
    m := 1
    F_train := exFMat [0, 1]
    f := 1
    X_train := none
    test_candidates := none
    gold_labels := none
    X_test := none }

/-- exL with a populated test cache for candidates [5] and gold labels
[1]. -/
def exL2 : Learner Nat :=
  { exL with
      test_candidates := some [5]
      gold_labels := some [1]
      X_test := some (Learner.set_model_X (apply_lfs [exLF] [5]) (exFMat [5])) }

/-- lf_w0 * np.ones(m) is m copies of lf_w0. -/
theorem npScale_ones (m : Nat) (a : ℚ) : npScale a (npOnes m) = List.replicate m a := by
  unfold npScale npOnes
  simp [List.map_replicate]

/-! ## Claims -/

/-- C1: For every trained joint Learner with m LFs and f features,
Learner.train(lf_w0, feat_w0, ...) builds the initial weight vector w0 as
m copies of lf_w0 followed by f copies of feat_w0, sets X_train to the
horizontal concatenation of L_train and F_train in column-sparse (csc)
layout, and then calls model.train(X_train, w0=w0) passing the
hyperparameters through. -/
theorem C1_joint_train_flow {C : Type} (lr : Learner C) (lf_w0 feat_w0 : ℚ) (hp : Hyper)
    (hL : lr.L_train.WF) (hF : lr.F_train.WF)
    (hr : lr.L_train.nrows = lr.F_train.nrows) :
    (lr.train lf_w0 feat_w0 hp).X_train = some (hstack_csc lr.L_train lr.F_train) ∧
    (hstack_csc lr.L_train lr.F_train).fmt = SpFmt.csc ∧
    (hstack_csc lr.L_train lr.F_train).nrows = lr.L_train.nrows ∧
    (hstack_csc lr.L_train lr.F_train).ncols = lr.L_train.ncols + lr.F_train.ncols ∧
    (∀ i j, (hstack_csc lr.L_train lr.F_train).entry i j =
      if j < lr.L_train.ncols then lr.L_train.entry i j
      else lr.F_train.entry i (j - lr.L_train.ncols)) ∧
    (lr.train lf_w0 feat_w0 hp).model =
      lr.model.train (hstack_csc lr.L_train lr.F_train)
        (List.replicate lr.m lf_w0 ++ List.replicate lr.f feat_w0) none hp := by
  refine ⟨rfl, rfl, rfl, rfl, fun i j => hstack_csc_entry _ _ hL hF hr i j, ?_⟩
  simp only [Learner.train, Learner.set_model_X, w0_concat]

/-- C1 witness: the hypotheses hold and the theorem applies at the concrete
joint learner exL. -/
theorem C1_joint_train_flow_witness :
    exL.L_train.WF ∧ exL.F_train.WF ∧ exL.L_train.nrows = exL.F_train.nrows ∧
    (exL.train 5 0 []).X_train = some (hstack_csc exL.L_train exL.F_train) :=
  ⟨by decide, by decide, by decide,
    (C1_joint_train_flow exL 5 0 [] (by decide) (by decide) (by decide)).1⟩

/-- C3: For every trained joint Learner with m LFs and f features,
lf_weights() returns exactly the first m entries of the trained weight
vector (length m), feat_weights() returns the remaining entries (length f),
and the concatenation lf_weights() ++ feat_weights() equals the model's
full weight vector w.  The model contract (spec section 6) gives the
trained weight vector one entry per column of X_train, i.e. length
m + f. -/
theorem C3_weight_decomposition {C : Type} (lr : Learner C)
    (h : lr.model.w.length = lr.m + lr.f) :
    lr.lf_weights = lr.model.w.take lr.m ∧
    lr.lf_weights.length = lr.m ∧
    lr.feat_weights.length = lr.f ∧
    lr.lf_weights ++ lr.feat_weights = lr.model.w := by
  unfold Learner.lf_weights Learner.feat_weights
  refine ⟨rfl, ?_, ?_, List.take_append_drop _ _⟩
  · rw [List.length_take, h]
    omega
  · rw [List.length_drop, h]
    omega

/-- C3 witness: exL is a trained joint learner with m = f = 1 and weight
vector [2, 3]. -/
theorem C3_weight_decomposition_witness :
    exL.model.w.length = exL.m + exL.f ∧
    exL.lf_weights ++ exL.feat_weights = exL.model.w :=
  ⟨by decide, (C3_weight_decomposition exL (by decide)).2.2.2⟩

/-- C4: For every label matrix L and feature matrix F,
PipelinedLearner._set_model_X(L, F) returns F unchanged up to conversion to
column-sparse layout, independent of L: for any two label matrices L1 and
L2 and the same F, the returned model input matrices are identical. -/
theorem C4_pipelined_ignores_L (L F : SpMat) :
    PipelinedLearner.set_model_X L F = { F with fmt := SpFmt.csc } ∧
    (PipelinedLearner.set_model_X L F).data = F.data ∧
    (PipelinedLearner.set_model_X L F).nrows = F.nrows ∧
    (PipelinedLearner.set_model_X L F).ncols = F.ncols ∧
    (PipelinedLearner.set_model_X L F).dtype = F.dtype ∧
    (PipelinedLearner.set_model_X L F).fmt = SpFmt.csc ∧
    ∀ L2, PipelinedLearner.set_model_X L2 F = PipelinedLearner.set_model_X L F :=
  ⟨rfl, rfl, rfl, rfl, rfl, rfl, fun _ => rfl⟩

/-- C7: The TrainingSet constructor is eager: TrainingSet(candidates, lfs,
featurizer) immediately runs transform(candidates, fit=true) and stores the
resulting L and F as attributes, so after construction L and F are
populated without any further call. -/
theorem C7_eager_constructor {C : Type} (cands : List C) (lfs : List (C → ℚ))
    (fz : Option (Featurizer C)) :
    (TrainingSet.make cands lfs fz).training_candidates = cands ∧
    (TrainingSet.make cands lfs fz).lfs = lfs ∧
    (TrainingSet.make cands lfs fz).featurizer = fz ∧
    ((TrainingSet.make cands lfs fz).L, (TrainingSet.make cands lfs fz).F) =
      transformWith lfs fz cands true ∧
    (TrainingSet.make cands lfs fz).L = apply_lfs lfs cands ∧
    (TrainingSet.make cands lfs fz).F = fz.map (fun z => z.fit_transform cands) := by
  refine ⟨rfl, rfl, rfl, rfl, rfl, ?_⟩
  cases fz <;> rfl

/-- C8: TrainingSet.transform(candidates, fit) always applies the LF engine
to the candidates; when a featurizer is present it calls
featurizer.fit_transform(candidates) if fit is true and
featurizer.transform(candidates) if fit is false; and when no featurizer is
supplied the returned F is null (None). -/
theorem C8_transform_behavior {C : Type} (ts : TrainingSet C) (cands : List C) (fit : Bool) :
    (ts.transform cands fit).1 = apply_lfs ts.lfs cands ∧
    (ts.featurizer = none → (ts.transform cands fit).2 = none) ∧
    (∀ fz, ts.featurizer = some fz →
      (ts.transform cands fit).2 =
        some (if fit then fz.fit_transform cands else fz.transform cands)) := by
  refine ⟨rfl, ?_, ?_⟩
  · intro h
    simp [TrainingSet.transform, transformWith, h]
  · intro fz h
    simp [TrainingSet.transform, transformWith, h]

/-- C8 witness: on the concrete training set exTS (featurizer present),
transform with fit = false uses the featurizer's transform. -/
theorem C8_transform_behavior_witness :
    exTS.featurizer = some exFz ∧
    (exTS.transform [3] false).2 = some (exFz.transform [3]) :=
  ⟨rfl, (C8_transform_behavior exTS [3] false).2.2 exFz rfl⟩

/-- C9: Constructing a Learner (joint or pipelined) over a TrainingSet that
was built without a featurizer raises an error during Learner.__init__
itself, because the feature count is read from the null feature matrix
(F.shape on None) — the no-featurizer case fails at learner construction
for both strategies, before any concatenation or training is attempted. -/
theorem C9_no_featurizer_init_error {C : Type} (cands : List C) (lfs : List (C → ℚ))
    (model : Model) :
    Learner.init (TrainingSet.make cands lfs none) model =
      Except.error PyError.attributeError ∧
    PipelinedLearner.init (TrainingSet.make cands lfs none) model =
      Except.error PyError.attributeError :=
  ⟨rfl, rfl⟩

/-- C2: PipelinedLearner.train performs two-stage training: it first
instantiates a fresh generative model and trains it on L_train alone with
initial weights lf_w0*ones(m); it then computes per-candidate training
marginals from that model over L_train; and it finally trains the primary
model on F_train alone, passing those marginals as soft targets with
initial weights feat_w0*ones(f).  Afterwards lf_weights() returns the
generative training model's weight vector unsliced and feat_weights()
returns the primary model's weight vector unsliced. -/
theorem C2_pipelined_two_stage {C : Type} (p : PipelinedLearner C) (logReg : ModelFns)
    (feat_w0 lf_w0 : ℚ) (hp : Hyper) :
    (p.train logReg feat_w0 lf_w0 hp).training_model =
      some { fns := logReg
             w := logReg.trainFn p.base.L_train (List.replicate p.base.m lf_w0) none hp } ∧
    (p.train logReg feat_w0 lf_w0 hp).base.X_train = some p.base.F_train.tocsc ∧
    (p.train logReg feat_w0 lf_w0 hp).base.model =
      p.base.model.train p.base.F_train.tocsc (List.replicate p.base.f feat_w0)
        (some (logReg.marginalsFn
          (logReg.trainFn p.base.L_train (List.replicate p.base.m lf_w0) none hp)
          p.base.L_train)) hp ∧
    (p.train logReg feat_w0 lf_w0 hp).lf_weights =
      some (logReg.trainFn p.base.L_train (List.replicate p.base.m lf_w0) none hp) ∧
    (p.train logReg feat_w0 lf_w0 hp).feat_weights =
      (p.train logReg feat_w0 lf_w0 hp).base.model.w ∧
    (p.train logReg feat_w0 lf_w0 hp).w =
      some (p.train logReg feat_w0 lf_w0 hp).base.model.w := by
  simp only [PipelinedLearner.train, PipelinedLearner.set_model_X, Model.train,
    Model.marginals, PipelinedLearner.lf_weights, PipelinedLearner.feat_weights,
    npScale_ones, Option.map_some]
  repeat' apply And.intro
  all_goals trivial

/-- C6 counterexample: the claim says the LF engine yields an int8 matrix,
but sparse.lil_matrix((n, m)) with no dtype argument allocates float64
entries and tocsr() keeps the dtype, so at the concrete input below the
matrix dtype is float64, not int8. -/
theorem C6_counterexample : ¬ (apply_lfs [exLF] [0, 1]).dtype = DType.int8 := by
  decide

/-- C6 (amended): For every candidate sequence C and LF sequence F,
applying the LF engine yields a sparse float64 (not int8) matrix of shape
(len(C), len(F)) in csr form in which the entry at (i, j) equals
lf_j(candidate_i), every cell is computed (no skipping), and — under the
precondition that each LF returns a value in {-1,0,1} on the candidates —
every entry is in {-1,0,1}. -/
theorem C6_lf_matrix_amended {C : Type} (lfs : List (C → ℚ)) (cands : List C)
    (hrange : ∀ lf ∈ lfs, ∀ c ∈ cands, lf c = -1 ∨ lf c = 0 ∨ lf c = 1) :
    (apply_lfs lfs cands).nrows = cands.length ∧
    (apply_lfs lfs cands).ncols = lfs.length ∧
    (apply_lfs lfs cands).dtype = DType.float64 ∧
    (apply_lfs lfs cands).fmt = SpFmt.csr ∧
    (∀ i j (hi : i < cands.length) (hj : j < lfs.length),
      (apply_lfs lfs cands).entry i j = (lfs.get ⟨j, hj⟩) (cands.get ⟨i, hi⟩)) ∧
    (∀ i j, i < cands.length → j < lfs.length →
      (apply_lfs lfs cands).entry i j = -1 ∨ (apply_lfs lfs cands).entry i j = 0 ∨
        (apply_lfs lfs cands).entry i j = 1) := by
  have hentry : ∀ i j (hi : i < cands.length) (hj : j < lfs.length),
      (apply_lfs lfs cands).entry i j = (lfs.get ⟨j, hj⟩) (cands.get ⟨i, hi⟩) := by
    intro i j hi hj
    unfold apply_lfs SpMat.entry SpMat.tocsr
    simp only
    have hrow : (List.map (fun c => List.map (fun lf => lf c) lfs) cands).getD i [] =
        List.map (fun lf => lf (cands.get ⟨i, hi⟩)) lfs := by
      rw [List.getD_eq_getElem _ _ (by simpa using hi), List.getElem_map]
      simp [List.get_eq_getElem]
    rw [hrow, List.getD_eq_getElem _ _ (by simpa using hj), List.getElem_map]
    simp [List.get_eq_getElem]
  refine ⟨rfl, rfl, rfl, rfl, hentry, ?_⟩
  intro i j hi hj
  rw [hentry i j hi hj]
  exact hrange _ (List.get_mem lfs j hj) _ (List.get_mem cands i hi)

/-- C6 witness: the amended theorem applies at the concrete LF exLF over
candidates [0, 1] (exLF only takes the values 1 and -1), and the entry at
row 1 is in {-1,0,1}. -/
theorem C6_lf_matrix_amended_witness :
    (∀ lf ∈ [exLF], ∀ c ∈ [0, 1], lf c = -1 ∨ lf c = 0 ∨ lf c = 1) ∧
    ((apply_lfs [exLF] [0, 1]).entry 1 0 = -1 ∨
      (apply_lfs [exLF] [0, 1]).entry 1 0 = 0 ∨
      (apply_lfs [exLF] [0, 1]).entry 1 0 = 1) :=
  ⟨by decide,
    (C6_lf_matrix_amended [exLF] [0, 1] (by decide)).2.2.2.2.2 1 0
      (by decide) (by decide)⟩

/-- The elementwise any(!=) of two pointwise-equal equal-length vectors is
false. -/
theorem zip_bne_any_false : ∀ (a b : List ℚ), b.length = a.length →
    (∀ k, k < a.length → a.getD k 0 = b.getD k 0) →
    (List.zipWith (fun x y => x != y) a b).any id = false := by
  intro a
  induction a with
  | nil =>
    intro b _ _
    simp
  | cons x a ih =>
    intro b hlen h
    cases b with
    | nil => simp at hlen
    | cons y b =>
      have hxy : x = y := by simpa using h 0 (by simp)
      have hrest := ih b (by simpa using hlen) (fun k hk => by
        simpa using h (k + 1) (by simpa using Nat.succ_lt_succ hk))
      simp only [List.zipWith_cons_cons, List.any_cons, hrest, hxy]
      simp

/-- Gold labels elementwise equal to the cached ones do not trip the cache
check. -/
theorem goldDiffers_eq_false (gl glc : List ℚ) (hlen : glc.length = gl.length)
    (h : ∀ k, k < gl.length → gl.getD k 0 = glc.getD k 0) :
    goldDiffers gl (some glc) = false := by
  show ((List.zipWith (fun x y => x != y) gl glc).any id || gl.length != glc.length) = false
  rw [zip_bne_any_false gl glc hlen h]
  simp [hlen]

/-- Changing one element of the cached gold labels trips the cache
check. -/
theorem goldDiffers_set_true (gl : List ℚ) (k : Nat) (v : ℚ) (hk : k < gl.length)
    (hv : v ≠ gl.getD k 0) : goldDiffers (gl.set k v) (some gl) = true := by
  show ((List.zipWith (fun x y => x != y) (gl.set k v) gl).any id ||
    (gl.set k v).length != gl.length) = true
  have hk2 : k < (List.zipWith (fun x y => x != y) (gl.set k v) gl).length := by
    simp only [List.length_zipWith, List.length_set]
    omega
  have hk3 : k < (gl.set k v).length := by
    simp only [List.length_set]
    exact hk
  have hval : (List.zipWith (fun x y => x != y) (gl.set k v) gl).get ⟨k, hk2⟩ = true := by
    simp only [List.get_eq_getElem, List.getElem_zipWith]
    have h1 : (gl.set k v).get ⟨k, hk3⟩ = v := List.getElem_set_self hk3
    have h2 : gl.get ⟨k, hk⟩ = gl.getD k 0 := (List.getD_eq_getElem gl 0 hk).symm
    simp only [List.get_eq_getElem] at h1 h2
    rw [h1, h2]
    simpa [bne_iff_ne] using hv
  have hany : (List.zipWith (fun x y => x != y) (gl.set k v) gl).any id = true := by
    rw [List.any_eq_true]
    exact ⟨true, by rw [← hval]; exact List.get_mem _ _ _, rfl⟩
  simp [hany]

/-- Reduction of Learner.test on a cache miss whose transform produced a
feature matrix. -/
theorem test_miss_eq {C : Type} [DecidableEq C] (strat : SpMat → SpMat → SpMat)
    (lr : Learner C) (tc : List C) (gl : List ℚ) (L F : SpMat)
    (hmiss : lr.cacheMiss tc gl = true)
    (htr : lr.training_set.transform tc false = (L, some F)) :
    Learner.test strat lr tc gl =
      some ({ lr with
                test_candidates := some tc
                gold_labels := some gl
                X_test := some (strat L F) }, true) := by
  unfold Learner.test
  rw [hmiss, htr]
  rfl

/-- Reduction of Learner.test on a cache hit. -/
theorem test_hit_eq {C : Type} [DecidableEq C] (strat : SpMat → SpMat → SpMat)
    (lr : Learner C) (tc : List C) (gl : List ℚ)
    (hhit : lr.cacheMiss tc gl = false) :
    Learner.test strat lr tc gl = some (lr, false) := by
  unfold Learner.test
  rw [hhit]
  rfl

/-- C5: Learner.test caches the transformed test set: calling test() twice
with identical test_candidates and element-wise identical gold_labels
performs the expensive transform/predict path only once (the second call
reuses the cached X_test without calling the training set's transform),
while changing any single element of gold_labels, or changing
test_candidates, between two test() calls forces recomputation of X_test.
The Boolean returned by the embedded test records whether the transform
path ran. -/
theorem C5_test_cache {C : Type} [DecidableEq C] (strat : SpMat → SpMat → SpMat)
    (lr : Learner C) (fz : Featurizer C) (tc : List C) (gl : List ℚ)
    (hfz : lr.training_set.featurizer = some fz)
    (hfresh : lr.X_test = none) :
    ∃ lr1 : Learner C,
      Learner.test strat lr tc gl = some (lr1, true) ∧
      Learner.test strat lr1 tc gl = some (lr1, false) ∧
      (∀ k v, k < gl.length → v ≠ gl.getD k 0 →
        ∃ lr2, Learner.test strat lr1 tc (gl.set k v) = some (lr2, true)) ∧
      (∀ tc2 : List C, tc2 ≠ tc →
        ∃ lr2, Learner.test strat lr1 tc2 gl = some (lr2, true)) := by
  have htrans : ∀ cs : List C, lr.training_set.transform cs false =
      (apply_lfs lr.training_set.lfs cs, some (fz.transform cs)) := by
    intro cs
    simp [TrainingSet.transform, transformWith, hfz]
  have hmiss1 : lr.cacheMiss tc gl = true := by
    simp [Learner.cacheMiss, hfresh]
  refine ⟨_, test_miss_eq strat lr tc gl _ _ hmiss1 (htrans tc), ?_, ?_, ?_⟩
  · apply test_hit_eq
    simp [Learner.cacheMiss, goldDiffers_eq_false gl gl rfl (fun _ _ => rfl)]
  · intro k v hk hv
    refine ⟨_, test_miss_eq strat _ tc (gl.set k v) _ _ ?_ (htrans tc)⟩
    simp [Learner.cacheMiss, goldDiffers_set_true gl k v hk hv]
  · intro tc2 htc2
    refine ⟨_, test_miss_eq strat _ tc2 gl _ _ ?_ (htrans tc2)⟩
    simp [Learner.cacheMiss, bne_iff_ne, htc2]

/-- C5 witness: the concrete joint learner exL has a featurizer and an
empty cache; the cache behaviour follows at test candidates [5] with gold
labels [1]. -/
theorem C5_test_cache_witness :
    exL.training_set.featurizer = some exFz ∧ exL.X_test = none ∧
    ∃ lr1 : Learner Nat,
      Learner.test Learner.set_model_X exL [5] [1] = some (lr1, true) ∧
      Learner.test Learner.set_model_X lr1 [5] [1] = some (lr1, false) ∧
      (∀ k v, k < [(1 : ℚ)].length → v ≠ [(1 : ℚ)].getD k 0 →
        ∃ lr2, Learner.test Learner.set_model_X lr1 [5] ([(1 : ℚ)].set k v) =
          some (lr2, true)) ∧
      (∀ tc2 : List Nat, tc2 ≠ [5] →
        ∃ lr2, Learner.test Learner.set_model_X lr1 tc2 [1] = some (lr2, true)) :=
  ⟨rfl, rfl, C5_test_cache Learner.set_model_X exL exFz [5] [1] rfl rfl⟩

/-- C10: On a cache hit, Learner.test leaves all of the Learner's cache
state unchanged: if test_candidates equals the cached test_candidates,
gold_labels is element-wise equal to the cached gold_labels, and X_test is
already populated, then the fields test_candidates, gold_labels, and X_test
hold exactly the same values after the call as before it; these three
fields are mutated only on a cache miss, and no other Learner fields are
mutated by test() at all. -/
theorem C10_test_frame {C : Type} [DecidableEq C] (strat : SpMat → SpMat → SpMat)
    (lr : Learner C) (tc : List C) (gl : List ℚ) :
    (∀ x glc, lr.X_test = some x → lr.test_candidates = some tc →
      lr.gold_labels = some glc → glc.length = gl.length →
      (∀ k, k < gl.length → gl.getD k 0 = glc.getD k 0) →
      Learner.test strat lr tc gl = some (lr, false)) ∧
    (∀ lr2 b, Learner.test strat lr tc gl = some (lr2, b) →
      lr2.training_set = lr.training_set ∧ lr2.model = lr.model ∧
      lr2.L_train = lr.L_train ∧ lr2.F_train = lr.F_train ∧
      lr2.n_train = lr.n_train ∧ lr2.m = lr.m ∧ lr2.f = lr.f ∧
      lr2.X_train = lr.X_train) := by
  constructor
  · intro x glc hx htc hgl hlen helem
    apply test_hit_eq
    simp [Learner.cacheMiss, hx, htc, hgl, goldDiffers_eq_false gl glc hlen helem]
  · intro lr2 b h
    by_cases hc : lr.cacheMiss tc gl = true
    · rcases htr : lr.training_set.transform tc false with ⟨L, Fo⟩
      cases Fo with
      | none =>
        unfold Learner.test at h
        rw [hc, htr] at h
        simp at h
      | some F =>
        rw [test_miss_eq strat lr tc gl L F hc htr] at h
        simp only [Option.some_inj, Prod.mk.injEq] at h
        obtain ⟨h1, _⟩ := h
        subst h1
        exact ⟨rfl, rfl, rfl, rfl, rfl, rfl, rfl, rfl⟩
    · rw [Bool.not_eq_true] at hc
      rw [test_hit_eq strat lr tc gl hc] at h
      simp only [Option.some_inj, Prod.mk.injEq] at h
      obtain ⟨h1, _⟩ := h
      subst h1
      exact ⟨rfl, rfl, rfl, rfl, rfl, rfl, rfl, rfl⟩

/-- C10 witness: at the concrete learner exL2, whose cache holds test
candidates [5], gold labels [1] and a populated X_test, a repeated test
call returns the state unchanged. -/
theorem C10_test_frame_witness :
    Learner.test Learner.set_model_X exL2 [5] [1] = some (exL2, false) :=
  (C10_test_frame Learner.set_model_X exL2 [5] [1]).1
    (Learner.set_model_X (apply_lfs [exLF] [5]) (exFMat [5])) [1]
    rfl rfl rfl rfl (fun _ _ => rfl)

end Snorkel
